import Mathlib

/-!
Shallow embedding of `covid19br/common/models/full_report.py` (class
`FullReportModel`): report reconciliation for one (state, reference date).

The bulletin value objects (`bulletin_models.py`), the `ReportQuality` /
`WarningType` enums and the warning record live outside the embedded file;
they are modelled from the spec (section 4.1 contract: `hasConfirmedCases`,
`hasDeaths`, `isEmpty`, `isComplete`, `mergeData`, identity key from
(city, region), value equality) wherever the report code calls them.
Counts are `Option Int` (Python ints are unbounded, a missing field is
`None`).
-/

/-- Modelled from the spec: `ReportQuality` enum (constants module, not in
the embedded file) with the three qualities the report code consults. -/
inductive ReportQuality where
  | COUNTY_BULLETINS
  | UNDEFINED_OR_IMPORTED_CASES
  | ONLY_TOTAL
deriving DecidableEq, Repr

/-- Modelled from the spec: `CountyBulletinModel` value object
(`bulletin_models.py`, not in the embedded file): fields date, region
(state), city, source, optional confirmed cases and deaths. -/
structure CountyBulletinModel where
  date : Nat
  state : String
  city : String
  source : String
  confirmed_cases : Option Int
  deaths : Option Int
deriving DecidableEq, Repr

/-- Modelled from the spec: `ImportedUndefinedBulletinModel` value object
(no city: it is the aggregate imported/undefined-location bucket). -/
structure ImportedUndefinedBulletinModel where
  date : Nat
  state : String
  source : String
  confirmed_cases : Option Int
  deaths : Option Int
deriving DecidableEq, Repr

/-- Modelled from the spec: `StateTotalBulletinModel` value object
(region-wide totals, also used for the running auto-calculated sum). -/
structure StateTotalBulletinModel where
  date : Nat
  state : String
  source : String
  confirmed_cases : Option Int
  deaths : Option Int
deriving DecidableEq, Repr

def CountyBulletinModel.has_confirmed_cases (b : CountyBulletinModel) : Bool :=
  b.confirmed_cases.isSome

def CountyBulletinModel.has_deaths (b : CountyBulletinModel) : Bool :=
  b.deaths.isSome

/-- Modelled from the spec: `isEmpty` iff neither count is recorded. -/
def CountyBulletinModel.is_empty (b : CountyBulletinModel) : Bool :=
  !b.has_confirmed_cases && !b.has_deaths

/-- Modelled from the spec: `isComplete` iff both counts are recorded. -/
def CountyBulletinModel.is_complete (b : CountyBulletinModel) : Bool :=
  b.has_confirmed_cases && b.has_deaths

/-- Modelled from the spec: `mergeData(other)` fills in each count field
the receiver lacks from `other`, never overwriting a present field. -/
def CountyBulletinModel.merge_data (b other : CountyBulletinModel) :
    CountyBulletinModel :=
  { b with
    confirmed_cases :=
      match b.confirmed_cases with
      | some v => some v
      | none => other.confirmed_cases
    deaths :=
      match b.deaths with
      | some v => some v
      | none => other.deaths }

/-- Modelled from the spec: the county identity key (`hash(bulletin)` in the
report code) is derived from (city, region). -/
def CountyBulletinModel.key (b : CountyBulletinModel) : String × String :=
  (b.city, b.state)

def ImportedUndefinedBulletinModel.has_confirmed_cases
    (b : ImportedUndefinedBulletinModel) : Bool :=
  b.confirmed_cases.isSome

def ImportedUndefinedBulletinModel.has_deaths
    (b : ImportedUndefinedBulletinModel) : Bool :=
  b.deaths.isSome

/-- Modelled from the spec: `isEmpty` iff neither count is recorded. -/
def ImportedUndefinedBulletinModel.is_empty
    (b : ImportedUndefinedBulletinModel) : Bool :=
  !b.has_confirmed_cases && !b.has_deaths

def StateTotalBulletinModel.has_confirmed_cases
    (b : StateTotalBulletinModel) : Bool :=
  b.confirmed_cases.isSome

def StateTotalBulletinModel.has_deaths (b : StateTotalBulletinModel) : Bool :=
  b.deaths.isSome

/-- Modelled from the spec: `isEmpty` iff neither count is recorded. -/
def StateTotalBulletinModel.is_empty (b : StateTotalBulletinModel) : Bool :=
  !b.has_confirmed_cases && !b.has_deaths

/-- Modelled from the spec: `increaseConfirmedCases` adds to the running
confirmed-cases counter (an absent counter counts as zero, and becomes
present once increased). -/
def StateTotalBulletinModel.increase_confirmed_cases
    (b : StateTotalBulletinModel) (n : Int) : StateTotalBulletinModel :=
  { b with confirmed_cases := some (b.confirmed_cases.getD 0 + n) }

/-- Modelled from the spec: `increaseDeaths`, symmetric counterpart. -/
def StateTotalBulletinModel.increase_deaths
    (b : StateTotalBulletinModel) (n : Int) : StateTotalBulletinModel :=
  { b with deaths := some (b.deaths.getD 0 + n) }

/-- Modelled from the spec: `decreaseConfirmedCases` subtracts from the
running confirmed-cases counter. -/
def StateTotalBulletinModel.decrease_confirmed_cases
    (b : StateTotalBulletinModel) (n : Int) : StateTotalBulletinModel :=
  { b with confirmed_cases := some (b.confirmed_cases.getD 0 - n) }

/-- Modelled from the spec: `decreaseDeaths`, symmetric counterpart. -/
def StateTotalBulletinModel.decrease_deaths
    (b : StateTotalBulletinModel) (n : Int) : StateTotalBulletinModel :=
  { b with deaths := some (b.deaths.getD 0 - n) }

/-- The closed sum of bulletin variants dispatched by `add_new_bulletin`. -/
inductive BulletinModel where
  | county (b : CountyBulletinModel)
  | importedUndefined (b : ImportedUndefinedBulletinModel)
  | stateTotal (b : StateTotalBulletinModel)
deriving DecidableEq, Repr

/-- State of a `FullReportModel` instance.  The county-bulletin dict is an
insertion-ordered association list keyed by the county identity key; the
warning set is kept as a duplicate-free list of warning slugs (the
`BulletinWarning` set deduplicates by slug, and only slugs are observable
through `warnings_slug`). -/
structure FullReportModel where
  reference_date : Nat
  published_at : Nat
  state : String
  undefined_or_imported_cases_bulletin : ImportedUndefinedBulletinModel
  official_total_bulletins : List StateTotalBulletinModel
  county_bulletins : List ((String × String) × CountyBulletinModel)
  auto_calculated_total : StateTotalBulletinModel
  expected_qualities : List ReportQuality
  warnings : List String
deriving DecidableEq, Repr

/-- `FullReportModel.__init__`: raises `BadReportError` when `qualities` is
empty, otherwise yields the fresh report with empty collections and the
placeholder auto-sum / imported-or-undefined bulletins. -/
def FullReportModel.init (reference_date published_at : Nat) (state : String)
    (qualities : List ReportQuality) : Except String FullReportModel :=
  if qualities.isEmpty then
    Except.error "BadReportError: A report cant have no qualities."
  else
    Except.ok
      { reference_date := reference_date
        published_at := published_at
        state := state
        county_bulletins := []
        warnings := []
        expected_qualities := qualities
        official_total_bulletins := []
        auto_calculated_total :=
          { date := reference_date, state := state, source := "Soma automática"
            confirmed_cases := none, deaths := none }
        undefined_or_imported_cases_bulletin :=
          { date := reference_date, state := state, source := "Não encontrada"
            confirmed_cases := none, deaths := none } }

/-- `total_bulletin` property: first official total if any, else the
auto-calculated total. -/
def FullReportModel.total_bulletin (r : FullReportModel) :
    StateTotalBulletinModel :=
  match r.official_total_bulletins with
  | [] => r.auto_calculated_total
  | b :: _ => b

/-- `county_bulletins` property: the stored county bulletins, in dict
insertion order. -/
def FullReportModel.county_bulletins_list (r : FullReportModel) :
    List CountyBulletinModel :=
  r.county_bulletins.map (fun p => p.2)

/-- `has_undefined_or_imported_cases` property: the bucket bulletin is set
(it always is after construction) and not empty. -/
def FullReportModel.has_undefined_or_imported_cases (r : FullReportModel) :
    Bool :=
  !r.undefined_or_imported_cases_bulletin.is_empty

/-- `add_warning`: inserts a `BulletinWarning` into the warning set; the set
deduplicates by slug, so a slug already present leaves the state unchanged
(the description is not retained in this model — it is never observable
through `warnings_slug`). -/
def FullReportModel.add_warning (r : FullReportModel) (slug : String) :
    FullReportModel :=
  if slug ∈ r.warnings then r else { r with warnings := r.warnings ++ [slug] }

/-- `_pop_county_bulletin`: removes and returns the bulletin stored under
`key` (if any), subtracting its present count fields from the
auto-calculated total. -/
def FullReportModel.pop_county_bulletin (r : FullReportModel)
    (key : String × String) :
    Option CountyBulletinModel × FullReportModel :=
  match r.county_bulletins.lookup key with
  | none => (none, r)
  | some b =>
    let r1 := { r with
      county_bulletins := r.county_bulletins.filter (fun p => p.1 ≠ key) }
    let t1 :=
      r1.auto_calculated_total.decrease_confirmed_cases (b.confirmed_cases.getD 0)
    let r2 :=
      if b.has_confirmed_cases then { r1 with auto_calculated_total := t1 }
      else r1
    let t2 := r2.auto_calculated_total.decrease_deaths (b.deaths.getD 0)
    let r3 :=
      if b.has_deaths then { r2 with auto_calculated_total := t2 }
      else r2
    (some b, r3)

/-- `_compare_county_bulletins_and_return_the_completest`: value-equal
bulletins short-circuit; otherwise a `SOURCES_DONT_MATCH` warning is added
when both report deaths with differing counts or both report confirmed
cases with differing counts, and then the completest of the two (or their
merge) is returned. -/
def FullReportModel.compare_county_bulletins_and_return_the_completest
    (r : FullReportModel) (existent_bulletin new_bulletin : CountyBulletinModel) :
    CountyBulletinModel × FullReportModel :=
  let both_have_deaths :=
    existent_bulletin.has_deaths && new_bulletin.has_deaths
  let both_have_confirmed_cases :=
    existent_bulletin.has_confirmed_cases && new_bulletin.has_confirmed_cases
  if existent_bulletin = new_bulletin then
    (existent_bulletin, r)
  else
    let r1 :=
      if (both_have_deaths && existent_bulletin.deaths ≠ new_bulletin.deaths)
          || (both_have_confirmed_cases
              && existent_bulletin.confirmed_cases ≠ new_bulletin.confirmed_cases)
      then r.add_warning "SOURCES_DONT_MATCH"
      else r
    if existent_bulletin.is_complete then (existent_bulletin, r1)
    else if new_bulletin.is_complete then (new_bulletin, r1)
    else (existent_bulletin.merge_data new_bulletin, r1)

/-- The shared tail of `add_new_bulletin` (lines 101-106): add the stored
bulletin's present count fields to the auto-calculated total. -/
def FullReportModel.bump_auto_total (r : FullReportModel)
    (confirmed_cases deaths : Option Int) : FullReportModel :=
  let r1 :=
    match confirmed_cases with
    | some n =>
      { r with auto_calculated_total := r.auto_calculated_total.increase_confirmed_cases n }
    | none => r
  match deaths with
  | some n =>
    { r1 with auto_calculated_total := r1.auto_calculated_total.increase_deaths n }
  | none => r1

/-- `add_new_bulletin`: dispatch on the bulletin variant.  County bulletins
are popped/reconciled/stored under their identity key and their resulting
counts added to the auto-calculated total; imported/undefined bulletins
replace the stored bucket (no subtraction) and their counts are added;
non-empty state totals are appended to the official list and the total is
left untouched. -/
def FullReportModel.add_new_bulletin (r : FullReportModel)
    (bulletin : BulletinModel) : FullReportModel :=
  match bulletin with
  | .county b =>
    let bulletin_key := b.key
    let popped := r.pop_county_bulletin bulletin_key
    let chosen :=
      match popped.1 with
      | some existent_bulletin =>
        popped.2.compare_county_bulletins_and_return_the_completest
          existent_bulletin b
      | none => (b, popped.2)
    let r1 := { chosen.2 with
      county_bulletins := chosen.2.county_bulletins ++ [(bulletin_key, chosen.1)] }
    r1.bump_auto_total
      (if chosen.1.has_confirmed_cases then some (chosen.1.confirmed_cases.getD 0)
       else none)
      (if chosen.1.has_deaths then some (chosen.1.deaths.getD 0) else none)
  | .importedUndefined b =>
    let r1 := { r with undefined_or_imported_cases_bulletin := b }
    r1.bump_auto_total
      (if b.has_confirmed_cases then some (b.confirmed_cases.getD 0) else none)
      (if b.has_deaths then some (b.deaths.getD 0) else none)
  | .stateTotal b =>
    if !b.is_empty then
      { r with official_total_bulletins := r.official_total_bulletins ++ [b] }
    else r

/-- `check_total_death_cases`: false with no official totals, otherwise the
auto-calculated deaths must equal every official bulletin's deaths. -/
def FullReportModel.check_total_death_cases (r : FullReportModel) : Bool :=
  if r.official_total_bulletins.isEmpty then false
  else
    r.official_total_bulletins.all
      (fun b => r.auto_calculated_total.deaths == b.deaths)

/-- `check_total_confirmed_cases`: symmetric counterpart for cases. -/
def FullReportModel.check_total_confirmed_cases (r : FullReportModel) : Bool :=
  if r.official_total_bulletins.isEmpty then false
  else
    r.official_total_bulletins.all
      (fun b => r.auto_calculated_total.confirmed_cases == b.confirmed_cases)

/-- A serialized row; per-row formatting is delegated to the bulletin
variants (out of scope), so a row is modelled as the tagged bulletin it
formats. -/
inductive CsvRow where
  | county (b : CountyBulletinModel)
  | imported (b : ImportedUndefinedBulletinModel)
  | total (b : StateTotalBulletinModel)
deriving DecidableEq, Repr

/-- `to_csv_rows`: loop over the county bulletins sorted by city, appending
a row for each non-empty one, then the imported/undefined bucket's row,
then the chosen total bulletin's row. -/
def FullReportModel.to_csv_rows (r : FullReportModel) : List CsvRow :=
  let sorted_counties :=
    r.county_bulletins_list.mergeSort (fun a b => a.city ≤ b.city)
  let rows :=
    sorted_counties.foldl
      (fun rows b => if !b.is_empty then rows ++ [CsvRow.county b] else rows) []
  rows ++ [CsvRow.imported r.undefined_or_imported_cases_bulletin,
           CsvRow.total r.total_bulletin]

/-- One `if <condition on the current state>: self.add_warning(slug)` block
of `_auto_detect_warnings`. -/
def FullReportModel.detect_step (r : FullReportModel)
    (cond : FullReportModel → Bool) (slug : String) : FullReportModel :=
  if cond r then r.add_warning slug else r

/-- First detection rule: county data expected but none stored. -/
def FullReportModel.cond_missing_county (r : FullReportModel) : Bool :=
  r.expected_qualities.contains ReportQuality.COUNTY_BULLETINS
    && r.county_bulletins.isEmpty

/-- Second detection rule: imported/undefined data expected but the bucket
is empty. -/
def FullReportModel.cond_missing_imported (r : FullReportModel) : Bool :=
  r.expected_qualities.contains ReportQuality.UNDEFINED_OR_IMPORTED_CASES
    && !r.has_undefined_or_imported_cases

/-- Third detection rule: the only-total quality always warns. -/
def FullReportModel.cond_only_total (r : FullReportModel) : Bool :=
  r.expected_qualities.contains ReportQuality.ONLY_TOTAL

/-- Fourth detection rule: the chosen total lacks confirmed cases. -/
def FullReportModel.cond_missing_confirmed (r : FullReportModel) : Bool :=
  !r.total_bulletin.has_confirmed_cases

/-- Fifth detection rule: the chosen total lacks deaths. -/
def FullReportModel.cond_missing_deaths (r : FullReportModel) : Bool :=
  !r.total_bulletin.has_deaths

/-- Sixth detection rule: no official totals at all. -/
def FullReportModel.cond_no_official (r : FullReportModel) : Bool :=
  r.official_total_bulletins.isEmpty

/-- Seventh detection rule (the `elif` of the sixth): officials exist, the
auto-sum is non-empty and one of the cross-checks fails. -/
def FullReportModel.cond_total_dont_match (r : FullReportModel) : Bool :=
  !r.auto_calculated_total.is_empty
    && (!r.check_total_confirmed_cases || !r.check_total_death_cases)

/-- The first five `if` blocks of `_auto_detect_warnings` (the
missing-data rules), in source order. -/
def FullReportModel.detect_presence_warnings (r : FullReportModel) :
    FullReportModel :=
  ((((r.detect_step FullReportModel.cond_missing_county
      "MISSING_COUNTY_BULLETINS").detect_step
      FullReportModel.cond_missing_imported
      "MISSING_IMPORTED_UNDEFINED_CASES").detect_step
      FullReportModel.cond_only_total "ONLY_TOTAL").detect_step
      FullReportModel.cond_missing_confirmed
      "MISSING_CONFIRMED_CASES").detect_step
      FullReportModel.cond_missing_deaths "MISSING_DEATHS"

/-- `_auto_detect_warnings`: the five missing-data rules, then the final
if/elif pair on official totals. -/
def FullReportModel.auto_detect_warnings (r : FullReportModel) :
    FullReportModel :=
  let r5 := r.detect_presence_warnings
  if r5.cond_no_official then r5.add_warning "NO_OFFICIAL_TOTAL"
  else if r5.cond_total_dont_match then r5.add_warning "TOTAL_DONT_MATCH"
  else r5

/-- `warnings_slug` property: runs auto-detection (mutating the warning
set), then renders the slug string.  Returns the string together with the
mutated report state. -/
def FullReportModel.warnings_slug (r : FullReportModel) :
    String × FullReportModel :=
  let r1 := r.auto_detect_warnings
  if r1.warnings.isEmpty then ("", r1)
  else
    ("__" ++ String.intercalate "__"
      (r1.warnings.dedup.mergeSort (fun a b => a ≤ b)), r1)

/-! ## Helper lemmas about `add_warning` -/

/-- The discrepancy condition of the merge-or-choose step, as the claim
words it: both report deaths with differing counts, or both report
confirmed cases with differing counts. -/
def CountyBulletinModel.sources_diverge (e b : CountyBulletinModel) : Bool :=
  ((e.has_deaths && b.has_deaths) && e.deaths ≠ b.deaths)
    || ((e.has_confirmed_cases && b.has_confirmed_cases)
        && e.confirmed_cases ≠ b.confirmed_cases)

def sampleEmptyCounty : CountyBulletinModel :=
  { date := 10, state := "SP", city := "Campinas", source := "fonte1",
    confirmed_cases := none, deaths := none }

def sampleFreshReport : FullReportModel :=
  { reference_date := 10
    published_at := 11
    state := "SP"
    county_bulletins := []
    warnings := []
    expected_qualities := [ReportQuality.COUNTY_BULLETINS]
    official_total_bulletins := []
    auto_calculated_total :=
      { date := 10, state := "SP", source := "Soma automática"
        confirmed_cases := none, deaths := none }
    undefined_or_imported_cases_bulletin :=
      { date := 10, state := "SP", source := "Não encontrada"
        confirmed_cases := none, deaths := none } }

def sampleCountyA : CountyBulletinModel :=
  { date := 10, state := "SP", city := "Campinas", source := "fonte1",
    confirmed_cases := some 10, deaths := some 1 }

def sampleCountyB : CountyBulletinModel :=
  { date := 10, state := "SP", city := "Campinas", source := "fonte2",
    confirmed_cases := some 12, deaths := none }

def sampleReportA : FullReportModel :=
  { sampleFreshReport with
    county_bulletins := [(sampleCountyA.key, sampleCountyA)]
    auto_calculated_total :=
      { date := 10, state := "SP", source := "Soma automática"
        confirmed_cases := some 10, deaths := some 1 } }

def FullReportModel.county_cases_sum (r : FullReportModel) : Int :=
  (r.county_bulletins.map (fun p => p.2.confirmed_cases.getD 0)).sum

def FullReportModel.county_deaths_sum (r : FullReportModel) : Int :=
  (r.county_bulletins.map (fun p => p.2.deaths.getD 0)).sum

/-- The spec's running-total invariant: the auto-calculated total equals
the sum over the currently stored county bulletins plus the current
imported/undefined bucket, a missing field contributing zero. -/
def FullReportModel.auto_total_matches_stored (r : FullReportModel) : Prop :=
  r.auto_calculated_total.confirmed_cases.getD 0
      = r.county_cases_sum
        + r.undefined_or_imported_cases_bulletin.confirmed_cases.getD 0
    ∧ r.auto_calculated_total.deaths.getD 0
      = r.county_deaths_sum
        + r.undefined_or_imported_cases_bulletin.deaths.getD 0

instance (r : FullReportModel) : Decidable r.auto_total_matches_stored := by
  unfold FullReportModel.auto_total_matches_stored
  infer_instance

/-- The invariant together with key uniqueness of the county map (which
every reachable state enjoys). -/
def FullReportModel.good_state (r : FullReportModel) : Prop :=
  r.auto_total_matches_stored ∧ (r.county_bulletins.map Prod.fst).Nodup

def BulletinModel.is_imported : BulletinModel → Bool
  | .importedUndefined _ => true
  | _ => false

def sampleImported : ImportedUndefinedBulletinModel :=
  { date := 10, state := "SP", source := "fonte2",
    confirmed_cases := some 2, deaths := some 0 }

def sampleTotal : StateTotalBulletinModel :=
  { date := 10, state := "SP", source := "governo",
    confirmed_cases := some 12, deaths := some 1 }

def sampleImportedOne : ImportedUndefinedBulletinModel :=
  { date := 10, state := "SP", source := "fonte1",
    confirmed_cases := some 1, deaths := none }

@[simp]
theorem FullReportModel.add_warning_county_bulletins (r : FullReportModel)
    (s : String) : (r.add_warning s).county_bulletins = r.county_bulletins := by
  unfold add_warning; split <;> rfl

@[simp]
theorem FullReportModel.add_warning_official (r : FullReportModel)
    (s : String) :
    (r.add_warning s).official_total_bulletins = r.official_total_bulletins := by
  unfold add_warning; split <;> rfl

@[simp]
theorem FullReportModel.add_warning_auto (r : FullReportModel) (s : String) :
    (r.add_warning s).auto_calculated_total = r.auto_calculated_total := by
  unfold add_warning; split <;> rfl

@[simp]
theorem FullReportModel.add_warning_qualities (r : FullReportModel)
    (s : String) :
    (r.add_warning s).expected_qualities = r.expected_qualities := by
  unfold add_warning; split <;> rfl

@[simp]
theorem FullReportModel.add_warning_undefined (r : FullReportModel)
    (s : String) :
    (r.add_warning s).undefined_or_imported_cases_bulletin
      = r.undefined_or_imported_cases_bulletin := by
  unfold add_warning; split <;> rfl

theorem FullReportModel.mem_add_warning_self (r : FullReportModel)
    (s : String) : s ∈ (r.add_warning s).warnings := by
  unfold add_warning; split
  · assumption
  · simp

theorem FullReportModel.add_warning_mono (r : FullReportModel) (s t : String)
    (h : t ∈ r.warnings) : t ∈ (r.add_warning s).warnings := by
  unfold add_warning; split
  · exact h
  · simp [h]

theorem FullReportModel.add_warning_absorb (r : FullReportModel) (s : String)
    (h : s ∈ r.warnings) : r.add_warning s = r := by
  unfold add_warning; simp [h]

/-- C5: `total_bulletin` returns the head of the official-totals sequence
when it is non-empty (whatever the auto-calculated total holds), and the
auto-calculated total otherwise. -/
theorem FullReportModel.total_bulletin_spec (r : FullReportModel) :
    r.total_bulletin
      = r.official_total_bulletins.headD r.auto_calculated_total := by
  unfold total_bulletin
  cases r.official_total_bulletins <;> rfl

/-- C6: each cross-check is true exactly when some official total is stored
and the auto-calculated total's respective field equals that field on every
stored official total; in particular both checks are false with no official
totals, and a single disagreeing official total falsifies a check. -/
theorem FullReportModel.check_totals_spec (r : FullReportModel) :
    (r.check_total_death_cases = true ↔
      r.official_total_bulletins ≠ [] ∧
        ∀ b ∈ r.official_total_bulletins,
          r.auto_calculated_total.deaths = b.deaths) ∧
    (r.check_total_confirmed_cases = true ↔
      r.official_total_bulletins ≠ [] ∧
        ∀ b ∈ r.official_total_bulletins,
          r.auto_calculated_total.confirmed_cases = b.confirmed_cases) := by
  constructor
  · unfold check_total_death_cases
    split
    · simp_all [List.isEmpty_iff]
    · simp_all [List.isEmpty_iff, List.all_eq_true]
  · unfold check_total_confirmed_cases
    split
    · simp_all [List.isEmpty_iff]
    · simp_all [List.isEmpty_iff, List.all_eq_true]

/-- C2: ingesting an `ImportedUndefinedBulletinModel` unconditionally
replaces the stored bucket without subtracting the previous occupant's
contribution from the auto-calculated total (the new total depends only on
the old total and the incoming bulletin), then adds the incoming bulletin's
present count fields; nothing else changes. -/
theorem FullReportModel.add_imported_spec (r : FullReportModel)
    (b : ImportedUndefinedBulletinModel) :
    (r.add_new_bulletin (BulletinModel.importedUndefined b)).undefined_or_imported_cases_bulletin = b ∧
    (r.add_new_bulletin (BulletinModel.importedUndefined b)).auto_calculated_total.confirmed_cases =
      (if b.has_confirmed_cases then
        some (r.auto_calculated_total.confirmed_cases.getD 0 + b.confirmed_cases.getD 0)
       else r.auto_calculated_total.confirmed_cases) ∧
    (r.add_new_bulletin (BulletinModel.importedUndefined b)).auto_calculated_total.deaths =
      (if b.has_deaths then
        some (r.auto_calculated_total.deaths.getD 0 + b.deaths.getD 0)
       else r.auto_calculated_total.deaths) ∧
    (r.add_new_bulletin (BulletinModel.importedUndefined b)).county_bulletins =
      r.county_bulletins ∧
    (r.add_new_bulletin (BulletinModel.importedUndefined b)).official_total_bulletins =
      r.official_total_bulletins ∧
    (r.add_new_bulletin (BulletinModel.importedUndefined b)).warnings = r.warnings := by
  unfold add_new_bulletin bump_auto_total
  unfold ImportedUndefinedBulletinModel.has_confirmed_cases
    ImportedUndefinedBulletinModel.has_deaths
  cases hc : b.confirmed_cases <;> cases hd : b.deaths <;>
    simp [StateTotalBulletinModel.increase_confirmed_cases,
      StateTotalBulletinModel.increase_deaths, hc, hd]

theorem CountyBulletinModel.sources_diverge_self_eq_false
    (e : CountyBulletinModel) : e.sources_diverge e = false := by
  simp [sources_diverge]

/-- Behavioral description of the merge-or-choose step, shared by the
lemmas and theorems below. -/
theorem FullReportModel.compare_behavior (r : FullReportModel)
    (e b : CountyBulletinModel) :
    (r.compare_county_bulletins_and_return_the_completest e b).1 =
      (if e = b then e
       else if e.is_complete then e
       else if b.is_complete then b
       else e.merge_data b) ∧
    (r.compare_county_bulletins_and_return_the_completest e b).2 =
      (if e.sources_diverge b then r.add_warning "SOURCES_DONT_MATCH"
       else r) := by
  simp only [compare_county_bulletins_and_return_the_completest,
    CountyBulletinModel.sources_diverge]
  by_cases heq : e = b
  · subst heq
    simp
  · simp only [if_neg heq]
    refine ⟨?_, ?_⟩ <;> split_ifs <;> simp_all

/-- C9: construction with an empty quality list fails with `BadReportError`;
with any non-empty quality list it succeeds and the returned report has no
county bulletins, no official totals, no warnings, an empty auto-calculated
total placeholder and an empty imported/undefined placeholder. -/
theorem FullReportModel.init_spec (reference_date published_at : Nat)
    (state : String) (qualities : List ReportQuality) :
    (qualities = [] →
      FullReportModel.init reference_date published_at state qualities =
        Except.error "BadReportError: A report cant have no qualities.") ∧
    (qualities ≠ [] →
      ∃ r, FullReportModel.init reference_date published_at state qualities
            = Except.ok r ∧
        r.county_bulletins = [] ∧
        r.official_total_bulletins = [] ∧
        r.warnings = [] ∧
        r.auto_calculated_total.is_empty = true ∧
        r.undefined_or_imported_cases_bulletin.is_empty = true ∧
        r.expected_qualities = qualities) := by
  constructor
  · intro h
    subst h
    rfl
  · intro h
    unfold init
    rw [if_neg (by simpa [List.isEmpty_iff] using h)]
    exact ⟨_, rfl, rfl, rfl, rfl, rfl, rfl, rfl⟩

/-- Witness for C9 at concrete inputs: the empty quality list fails, the
singleton quality list succeeds with all collections empty. -/
theorem FullReportModel.init_spec_witness :
    (FullReportModel.init 0 0 "SP" [] =
      Except.error "BadReportError: A report cant have no qualities.") ∧
    (∃ r, FullReportModel.init 0 0 "SP" [ReportQuality.ONLY_TOTAL]
          = Except.ok r ∧
      r.county_bulletins = [] ∧
      r.official_total_bulletins = [] ∧
      r.warnings = [] ∧
      r.auto_calculated_total.is_empty = true ∧
      r.undefined_or_imported_cases_bulletin.is_empty = true ∧
      r.expected_qualities = [ReportQuality.ONLY_TOTAL]) :=
  ⟨(FullReportModel.init_spec 0 0 "SP" []).1 rfl,
   (FullReportModel.init_spec 0 0 "SP" [ReportQuality.ONLY_TOTAL]).2
     (by decide)⟩

/-- The row-accumulating loop of `to_csv_rows` is filter-then-map. -/
theorem foldl_append_if_eq_filter_map {α β : Type} (p : α → Bool) (f : α → β)
    (l : List α) (rows : List β) :
    l.foldl (fun rows b => if p b then rows ++ [f b] else rows) rows
      = rows ++ (l.filter p).map f := by
  induction l generalizing rows with
  | nil => simp
  | cons a l ih =>
    by_cases h : p a
    · simp [List.foldl_cons, h, ih, List.append_assoc]
    · simp [List.foldl_cons, h, ih]

/-- C8: the row export is exactly the non-empty county bulletins in
ascending city order, then (unconditionally) the imported/undefined
bucket's row, then the chosen total bulletin's row; in particular the
county-row segment is sorted by city and the result always ends with those
two rows. -/
theorem FullReportModel.to_csv_rows_spec (r : FullReportModel) :
    r.to_csv_rows =
      ((r.county_bulletins_list.mergeSort (fun a b => a.city ≤ b.city)).filter
          (fun b => !b.is_empty)).map CsvRow.county
        ++ [CsvRow.imported r.undefined_or_imported_cases_bulletin,
            CsvRow.total r.total_bulletin] ∧
    List.Pairwise (fun a b => a.city ≤ b.city)
      ((r.county_bulletins_list.mergeSort (fun a b => a.city ≤ b.city)).filter
        (fun b => !b.is_empty)) ∧
    ∃ pre, r.to_csv_rows = pre
        ++ [CsvRow.imported r.undefined_or_imported_cases_bulletin,
            CsvRow.total r.total_bulletin] := by
  have hrows : r.to_csv_rows =
      ((r.county_bulletins_list.mergeSort (fun a b => a.city ≤ b.city)).filter
          (fun b => !b.is_empty)).map CsvRow.county
        ++ [CsvRow.imported r.undefined_or_imported_cases_bulletin,
            CsvRow.total r.total_bulletin] := by
    simp only [to_csv_rows]
    rw [foldl_append_if_eq_filter_map]
    simp
  refine ⟨hrows, ?_, ⟨_, hrows⟩⟩
  have hs := @List.sorted_mergeSort CountyBulletinModel
    (fun a b => decide (a.city ≤ b.city))
    (fun a b c h1 h2 => by
      simp only [decide_eq_true_eq] at *
      exact le_trans h1 h2)
    (fun a b => by simpa using le_total a.city b.city)
    r.county_bulletins_list
  have hs2 : List.Pairwise (fun a b : CountyBulletinModel => a.city ≤ b.city)
      (r.county_bulletins_list.mergeSort (fun a b => a.city ≤ b.city)) :=
    hs.imp (fun h => by simpa using h)
  exact hs2.filter (fun b => !b.is_empty)

/-! ## Stability of the report's readable state under warning insertion -/

@[simp]
theorem FullReportModel.add_warning_total_bulletin (r : FullReportModel)
    (s : String) : (r.add_warning s).total_bulletin = r.total_bulletin := by
  unfold total_bulletin
  rw [add_warning_official, add_warning_auto]

@[simp]
theorem FullReportModel.add_warning_has_undefined (r : FullReportModel)
    (s : String) :
    (r.add_warning s).has_undefined_or_imported_cases
      = r.has_undefined_or_imported_cases := by
  simp [has_undefined_or_imported_cases]

@[simp]
theorem FullReportModel.add_warning_check_deaths (r : FullReportModel)
    (s : String) :
    (r.add_warning s).check_total_death_cases = r.check_total_death_cases := by
  simp [check_total_death_cases]

@[simp]
theorem FullReportModel.add_warning_check_confirmed (r : FullReportModel)
    (s : String) :
    (r.add_warning s).check_total_confirmed_cases
      = r.check_total_confirmed_cases := by
  simp [check_total_confirmed_cases]

@[simp]
theorem FullReportModel.cond_missing_county_add_warning (r : FullReportModel)
    (s : String) :
    (r.add_warning s).cond_missing_county = r.cond_missing_county := by
  simp [cond_missing_county]

@[simp]
theorem FullReportModel.cond_missing_imported_add_warning
    (r : FullReportModel) (s : String) :
    (r.add_warning s).cond_missing_imported = r.cond_missing_imported := by
  simp [cond_missing_imported]

@[simp]
theorem FullReportModel.cond_only_total_add_warning (r : FullReportModel)
    (s : String) :
    (r.add_warning s).cond_only_total = r.cond_only_total := by
  simp [cond_only_total]

@[simp]
theorem FullReportModel.cond_missing_confirmed_add_warning
    (r : FullReportModel) (s : String) :
    (r.add_warning s).cond_missing_confirmed = r.cond_missing_confirmed := by
  simp [cond_missing_confirmed]

@[simp]
theorem FullReportModel.cond_missing_deaths_add_warning (r : FullReportModel)
    (s : String) :
    (r.add_warning s).cond_missing_deaths = r.cond_missing_deaths := by
  simp [cond_missing_deaths]

@[simp]
theorem FullReportModel.cond_no_official_add_warning (r : FullReportModel)
    (s : String) :
    (r.add_warning s).cond_no_official = r.cond_no_official := by
  simp [cond_no_official]

@[simp]
theorem FullReportModel.cond_total_dont_match_add_warning
    (r : FullReportModel) (s : String) :
    (r.add_warning s).cond_total_dont_match = r.cond_total_dont_match := by
  simp [cond_total_dont_match]

@[simp]
theorem FullReportModel.cond_missing_county_detect_step (r : FullReportModel)
    (c : FullReportModel → Bool) (s : String) :
    (r.detect_step c s).cond_missing_county = r.cond_missing_county := by
  unfold detect_step; split <;> simp

@[simp]
theorem FullReportModel.cond_missing_imported_detect_step
    (r : FullReportModel) (c : FullReportModel → Bool) (s : String) :
    (r.detect_step c s).cond_missing_imported = r.cond_missing_imported := by
  unfold detect_step; split <;> simp

@[simp]
theorem FullReportModel.cond_only_total_detect_step (r : FullReportModel)
    (c : FullReportModel → Bool) (s : String) :
    (r.detect_step c s).cond_only_total = r.cond_only_total := by
  unfold detect_step; split <;> simp

@[simp]
theorem FullReportModel.cond_missing_confirmed_detect_step
    (r : FullReportModel) (c : FullReportModel → Bool) (s : String) :
    (r.detect_step c s).cond_missing_confirmed = r.cond_missing_confirmed := by
  unfold detect_step; split <;> simp

@[simp]
theorem FullReportModel.cond_missing_deaths_detect_step (r : FullReportModel)
    (c : FullReportModel → Bool) (s : String) :
    (r.detect_step c s).cond_missing_deaths = r.cond_missing_deaths := by
  unfold detect_step; split <;> simp

@[simp]
theorem FullReportModel.cond_no_official_detect_step (r : FullReportModel)
    (c : FullReportModel → Bool) (s : String) :
    (r.detect_step c s).cond_no_official = r.cond_no_official := by
  unfold detect_step; split <;> simp

@[simp]
theorem FullReportModel.cond_total_dont_match_detect_step
    (r : FullReportModel) (c : FullReportModel → Bool) (s : String) :
    (r.detect_step c s).cond_total_dont_match = r.cond_total_dont_match := by
  unfold detect_step; split <;> simp

theorem FullReportModel.detect_step_mono (r : FullReportModel)
    (c : FullReportModel → Bool) (s t : String) (h : t ∈ r.warnings) :
    t ∈ (r.detect_step c s).warnings := by
  unfold detect_step; split
  · exact r.add_warning_mono s t h
  · exact h

theorem FullReportModel.detect_step_triggered (r : FullReportModel)
    (c : FullReportModel → Bool) (s : String) (h : c r = true) :
    s ∈ (r.detect_step c s).warnings := by
  unfold detect_step
  rw [if_pos h]
  exact r.mem_add_warning_self s

theorem FullReportModel.detect_step_absorbed (r : FullReportModel)
    (c : FullReportModel → Bool) (s : String)
    (h : c r = true → s ∈ r.warnings) : r.detect_step c s = r := by
  unfold detect_step; split
  · exact r.add_warning_absorb s (h ‹_›)
  · rfl

/-! ## Idempotence of warning auto-detection -/

@[simp]
theorem FullReportModel.cond_missing_county_presence (r : FullReportModel) :
    (r.detect_presence_warnings).cond_missing_county
      = r.cond_missing_county := by
  simp [detect_presence_warnings]

@[simp]
theorem FullReportModel.cond_missing_imported_presence (r : FullReportModel) :
    (r.detect_presence_warnings).cond_missing_imported
      = r.cond_missing_imported := by
  simp [detect_presence_warnings]

@[simp]
theorem FullReportModel.cond_only_total_presence (r : FullReportModel) :
    (r.detect_presence_warnings).cond_only_total = r.cond_only_total := by
  simp [detect_presence_warnings]

@[simp]
theorem FullReportModel.cond_missing_confirmed_presence (r : FullReportModel) :
    (r.detect_presence_warnings).cond_missing_confirmed
      = r.cond_missing_confirmed := by
  simp [detect_presence_warnings]

@[simp]
theorem FullReportModel.cond_missing_deaths_presence (r : FullReportModel) :
    (r.detect_presence_warnings).cond_missing_deaths
      = r.cond_missing_deaths := by
  simp [detect_presence_warnings]

@[simp]
theorem FullReportModel.cond_no_official_presence (r : FullReportModel) :
    (r.detect_presence_warnings).cond_no_official = r.cond_no_official := by
  simp [detect_presence_warnings]

@[simp]
theorem FullReportModel.cond_total_dont_match_presence (r : FullReportModel) :
    (r.detect_presence_warnings).cond_total_dont_match
      = r.cond_total_dont_match := by
  simp [detect_presence_warnings]

theorem FullReportModel.detect_presence_mono (r : FullReportModel)
    (t : String) (h : t ∈ r.warnings) :
    t ∈ (r.detect_presence_warnings).warnings := by
  unfold detect_presence_warnings
  apply detect_step_mono
  apply detect_step_mono
  apply detect_step_mono
  apply detect_step_mono
  apply detect_step_mono
  exact h

theorem FullReportModel.auto_detect_mono (r : FullReportModel) (t : String)
    (h : t ∈ r.warnings) : t ∈ (r.auto_detect_warnings).warnings := by
  simp only [auto_detect_warnings]
  split_ifs <;> solve_by_elim [add_warning_mono, detect_presence_mono]

theorem FullReportModel.auto_detect_mem_of_presence (r : FullReportModel)
    (t : String) (h : t ∈ (r.detect_presence_warnings).warnings) :
    t ∈ (r.auto_detect_warnings).warnings := by
  simp only [auto_detect_warnings]
  split_ifs <;> solve_by_elim [add_warning_mono]

theorem FullReportModel.presence_mem_missing_county (r : FullReportModel)
    (h : r.cond_missing_county = true) :
    "MISSING_COUNTY_BULLETINS" ∈ (r.detect_presence_warnings).warnings := by
  unfold detect_presence_warnings
  apply detect_step_mono
  apply detect_step_mono
  apply detect_step_mono
  apply detect_step_mono
  exact detect_step_triggered _ _ _ h

theorem FullReportModel.presence_mem_missing_imported (r : FullReportModel)
    (h : r.cond_missing_imported = true) :
    "MISSING_IMPORTED_UNDEFINED_CASES"
      ∈ (r.detect_presence_warnings).warnings := by
  unfold detect_presence_warnings
  apply detect_step_mono
  apply detect_step_mono
  apply detect_step_mono
  apply detect_step_triggered
  simp [h]

theorem FullReportModel.presence_mem_only_total (r : FullReportModel)
    (h : r.cond_only_total = true) :
    "ONLY_TOTAL" ∈ (r.detect_presence_warnings).warnings := by
  unfold detect_presence_warnings
  apply detect_step_mono
  apply detect_step_mono
  apply detect_step_triggered
  simp [h]

theorem FullReportModel.presence_mem_missing_confirmed (r : FullReportModel)
    (h : r.cond_missing_confirmed = true) :
    "MISSING_CONFIRMED_CASES" ∈ (r.detect_presence_warnings).warnings := by
  unfold detect_presence_warnings
  apply detect_step_mono
  apply detect_step_triggered
  simp [h]

theorem FullReportModel.presence_mem_missing_deaths (r : FullReportModel)
    (h : r.cond_missing_deaths = true) :
    "MISSING_DEATHS" ∈ (r.detect_presence_warnings).warnings := by
  unfold detect_presence_warnings
  apply detect_step_triggered
  simp [h]

theorem FullReportModel.auto_detect_mem_no_official (r : FullReportModel)
    (h : r.cond_no_official = true) :
    "NO_OFFICIAL_TOTAL" ∈ (r.auto_detect_warnings).warnings := by
  simp only [auto_detect_warnings]
  rw [if_pos (by simp [h])]
  exact mem_add_warning_self _ _

theorem FullReportModel.auto_detect_mem_total_dont_match (r : FullReportModel)
    (h6 : r.cond_no_official = false) (h7 : r.cond_total_dont_match = true) :
    "TOTAL_DONT_MATCH" ∈ (r.auto_detect_warnings).warnings := by
  simp only [auto_detect_warnings]
  rw [if_neg (by simp [h6]), if_pos (by simp [h7])]
  exact mem_add_warning_self _ _

@[simp]
theorem FullReportModel.cond_missing_county_auto_detect (r : FullReportModel) :
    (r.auto_detect_warnings).cond_missing_county = r.cond_missing_county := by
  simp only [auto_detect_warnings]
  split_ifs <;> simp

@[simp]
theorem FullReportModel.cond_missing_imported_auto_detect
    (r : FullReportModel) :
    (r.auto_detect_warnings).cond_missing_imported
      = r.cond_missing_imported := by
  simp only [auto_detect_warnings]
  split_ifs <;> simp

@[simp]
theorem FullReportModel.cond_only_total_auto_detect (r : FullReportModel) :
    (r.auto_detect_warnings).cond_only_total = r.cond_only_total := by
  simp only [auto_detect_warnings]
  split_ifs <;> simp

@[simp]
theorem FullReportModel.cond_missing_confirmed_auto_detect
    (r : FullReportModel) :
    (r.auto_detect_warnings).cond_missing_confirmed
      = r.cond_missing_confirmed := by
  simp only [auto_detect_warnings]
  split_ifs <;> simp

@[simp]
theorem FullReportModel.cond_missing_deaths_auto_detect (r : FullReportModel) :
    (r.auto_detect_warnings).cond_missing_deaths = r.cond_missing_deaths := by
  simp only [auto_detect_warnings]
  split_ifs <;> simp

@[simp]
theorem FullReportModel.cond_no_official_auto_detect (r : FullReportModel) :
    (r.auto_detect_warnings).cond_no_official = r.cond_no_official := by
  simp only [auto_detect_warnings]
  split_ifs <;> simp

@[simp]
theorem FullReportModel.cond_total_dont_match_auto_detect
    (r : FullReportModel) :
    (r.auto_detect_warnings).cond_total_dont_match
      = r.cond_total_dont_match := by
  simp only [auto_detect_warnings]
  split_ifs <;> simp

theorem FullReportModel.detect_presence_absorbed (r : FullReportModel)
    (h1 : r.cond_missing_county = true →
      "MISSING_COUNTY_BULLETINS" ∈ r.warnings)
    (h2 : r.cond_missing_imported = true →
      "MISSING_IMPORTED_UNDEFINED_CASES" ∈ r.warnings)
    (h3 : r.cond_only_total = true → "ONLY_TOTAL" ∈ r.warnings)
    (h4 : r.cond_missing_confirmed = true →
      "MISSING_CONFIRMED_CASES" ∈ r.warnings)
    (h5 : r.cond_missing_deaths = true → "MISSING_DEATHS" ∈ r.warnings) :
    r.detect_presence_warnings = r := by
  unfold detect_presence_warnings
  rw [detect_step_absorbed r _ _ h1, detect_step_absorbed r _ _ h2,
    detect_step_absorbed r _ _ h3, detect_step_absorbed r _ _ h4,
    detect_step_absorbed r _ _ h5]

/-- Auto-detection is idempotent: every rule's condition is untouched by
warning insertion, and a second pass only re-adds slugs that the warning
set already holds. -/
theorem FullReportModel.auto_detect_idem (r : FullReportModel) :
    (r.auto_detect_warnings).auto_detect_warnings = r.auto_detect_warnings := by
  have habs : (r.auto_detect_warnings).detect_presence_warnings
      = r.auto_detect_warnings := by
    apply detect_presence_absorbed
    · intro h
      exact r.auto_detect_mem_of_presence _
        (r.presence_mem_missing_county (by simpa using h))
    · intro h
      exact r.auto_detect_mem_of_presence _
        (r.presence_mem_missing_imported (by simpa using h))
    · intro h
      exact r.auto_detect_mem_of_presence _
        (r.presence_mem_only_total (by simpa using h))
    · intro h
      exact r.auto_detect_mem_of_presence _
        (r.presence_mem_missing_confirmed (by simpa using h))
    · intro h
      exact r.auto_detect_mem_of_presence _
        (r.presence_mem_missing_deaths (by simpa using h))
  conv_lhs => rw [auto_detect_warnings]
  rw [habs]
  by_cases h6 : r.cond_no_official
  · rw [if_pos (by simpa using h6)]
    exact add_warning_absorb _ _ (r.auto_detect_mem_no_official h6)
  · rw [if_neg (by simpa using h6)]
    by_cases h7 : r.cond_total_dont_match
    · rw [if_pos (by simpa using h7)]
      exact add_warning_absorb _ _
        (r.auto_detect_mem_total_dont_match (by simpa using h6) h7)
    · rw [if_neg (by simpa using h7)]

/-- C7: `warnings_slug` first runs auto-detection, then returns the empty
string when the warning set is empty and otherwise `"__"` followed by the
sorted, deduplicated warning kinds joined by `"__"`; calling it again on
the resulting state returns the same string. -/
theorem FullReportModel.warnings_slug_spec (r : FullReportModel) :
    (r.warnings_slug).2 = r.auto_detect_warnings ∧
    (r.warnings_slug).1 =
      (if (r.auto_detect_warnings).warnings.isEmpty then ""
       else "__" ++ String.intercalate "__"
         ((r.auto_detect_warnings).warnings.dedup.mergeSort
           (fun a b => a ≤ b))) ∧
    ((r.warnings_slug).2.warnings_slug).1 = (r.warnings_slug).1 := by
  have h2 : (r.warnings_slug).2 = r.auto_detect_warnings := by
    simp only [warnings_slug]
    split <;> rfl
  have h1 : ∀ x : FullReportModel, (x.warnings_slug).1 =
      (if (x.auto_detect_warnings).warnings.isEmpty then ""
       else "__" ++ String.intercalate "__"
         ((x.auto_detect_warnings).warnings.dedup.mergeSort
           (fun a b => a ≤ b))) := by
    intro x
    simp only [warnings_slug]
    split <;> simp_all
  refine ⟨h2, h1 r, ?_⟩
  rw [h2, h1 r, h1 r.auto_detect_warnings, auto_detect_idem]

/-! ## The county ingestion path -/

theorem opt_if_isSome (o : Option Int) :
    (if o.isSome then some (o.getD 0) else none) = o := by
  cases o <;> simp

/-- The confirmed-cases argument `add_new_bulletin` passes to the shared
total-increasing tail is exactly the bulletin's field. -/
theorem county_cc_arg (c : CountyBulletinModel) :
    (if c.has_confirmed_cases then some (c.confirmed_cases.getD 0) else none)
      = c.confirmed_cases := by
  unfold CountyBulletinModel.has_confirmed_cases
  exact opt_if_isSome _

/-- Deaths counterpart of `county_cc_arg`. -/
theorem county_dd_arg (c : CountyBulletinModel) :
    (if c.has_deaths then some (c.deaths.getD 0) else none) = c.deaths := by
  unfold CountyBulletinModel.has_deaths
  exact opt_if_isSome _

/-- Confirmed-cases argument for the imported/undefined variant. -/
theorem imported_cc_arg (c : ImportedUndefinedBulletinModel) :
    (if c.has_confirmed_cases then some (c.confirmed_cases.getD 0) else none)
      = c.confirmed_cases := by
  unfold ImportedUndefinedBulletinModel.has_confirmed_cases
  exact opt_if_isSome _

/-- Deaths argument for the imported/undefined variant. -/
theorem imported_dd_arg (c : ImportedUndefinedBulletinModel) :
    (if c.has_deaths then some (c.deaths.getD 0) else none) = c.deaths := by
  unfold ImportedUndefinedBulletinModel.has_deaths
  exact opt_if_isSome _

theorem FullReportModel.bump_auto_total_spec (r : FullReportModel)
    (cc dd : Option Int) :
    (r.bump_auto_total cc dd).auto_calculated_total.confirmed_cases.getD 0
      = r.auto_calculated_total.confirmed_cases.getD 0 + cc.getD 0 ∧
    (r.bump_auto_total cc dd).auto_calculated_total.deaths.getD 0
      = r.auto_calculated_total.deaths.getD 0 + dd.getD 0 ∧
    (r.bump_auto_total cc dd).county_bulletins = r.county_bulletins ∧
    (r.bump_auto_total cc dd).undefined_or_imported_cases_bulletin
      = r.undefined_or_imported_cases_bulletin ∧
    (r.bump_auto_total cc dd).official_total_bulletins
      = r.official_total_bulletins ∧
    (r.bump_auto_total cc dd).warnings = r.warnings ∧
    (r.bump_auto_total cc dd).expected_qualities = r.expected_qualities := by
  cases cc <;> cases dd <;>
    simp [bump_auto_total, StateTotalBulletinModel.increase_confirmed_cases,
      StateTotalBulletinModel.increase_deaths]

theorem FullReportModel.bump_auto_total_none (r : FullReportModel) :
    r.bump_auto_total none none = r := rfl

theorem FullReportModel.pop_county_bulletin_fresh (r : FullReportModel)
    (key : String × String) (h : r.county_bulletins.lookup key = none) :
    r.pop_county_bulletin key = (none, r) := by
  unfold pop_county_bulletin
  rw [h]

theorem FullReportModel.pop_county_bulletin_found (r : FullReportModel)
    (key : String × String) (e : CountyBulletinModel)
    (h : r.county_bulletins.lookup key = some e) :
    (r.pop_county_bulletin key).1 = some e ∧
    (r.pop_county_bulletin key).2.county_bulletins
      = r.county_bulletins.filter (fun p => p.1 ≠ key) ∧
    (r.pop_county_bulletin key).2.auto_calculated_total.confirmed_cases.getD 0
      = r.auto_calculated_total.confirmed_cases.getD 0
        - e.confirmed_cases.getD 0 ∧
    (r.pop_county_bulletin key).2.auto_calculated_total.deaths.getD 0
      = r.auto_calculated_total.deaths.getD 0 - e.deaths.getD 0 ∧
    (r.pop_county_bulletin key).2.undefined_or_imported_cases_bulletin
      = r.undefined_or_imported_cases_bulletin ∧
    (r.pop_county_bulletin key).2.official_total_bulletins
      = r.official_total_bulletins ∧
    (r.pop_county_bulletin key).2.warnings = r.warnings ∧
    (r.pop_county_bulletin key).2.expected_qualities
      = r.expected_qualities := by
  simp only [pop_county_bulletin, h]
  cases hc : e.confirmed_cases <;> cases hd : e.deaths <;>
    simp_all [CountyBulletinModel.has_confirmed_cases,
      CountyBulletinModel.has_deaths,
      StateTotalBulletinModel.decrease_confirmed_cases,
      StateTotalBulletinModel.decrease_deaths]

theorem FullReportModel.compare_snd_projections (r : FullReportModel)
    (e b : CountyBulletinModel) :
    (r.compare_county_bulletins_and_return_the_completest e b).2.county_bulletins
      = r.county_bulletins ∧
    (r.compare_county_bulletins_and_return_the_completest e b).2.auto_calculated_total
      = r.auto_calculated_total ∧
    (r.compare_county_bulletins_and_return_the_completest e b).2.undefined_or_imported_cases_bulletin
      = r.undefined_or_imported_cases_bulletin ∧
    (r.compare_county_bulletins_and_return_the_completest e b).2.official_total_bulletins
      = r.official_total_bulletins ∧
    (r.compare_county_bulletins_and_return_the_completest e b).2.expected_qualities
      = r.expected_qualities := by
  rw [(r.compare_behavior e b).2]
  split <;> simp

theorem lookup_filter_ne_self {β : Type} (l : List ((String × String) × β))
    (key : String × String) :
    (l.filter (fun p => p.1 ≠ key)).lookup key = none := by
  induction l with
  | nil => rfl
  | cons p t ih =>
    obtain ⟨k, v⟩ := p
    by_cases h : k = key
    · simpa [List.filter_cons, h] using ih
    · have h2 : (key == k) = false := by
        simp only [beq_eq_false_iff_ne]
        exact fun hk => h hk.symm
      simp [List.filter_cons, h, List.lookup_cons, h2, ih]
      exact fun a b bb hmem hne hk => hne hk.symm

theorem lookup_append_right {β : Type} (l1 l2 : List ((String × String) × β))
    (key : String × String) (h : l1.lookup key = none) :
    (l1 ++ l2).lookup key = l2.lookup key := by
  induction l1 with
  | nil => rfl
  | cons p t ih =>
    cases p with
    | mk k v =>
      rw [List.cons_append, List.lookup_cons]
      rw [List.lookup_cons] at h
      cases hk : (key == k) with
      | true => simp [hk] at h
      | false =>
        simp only [hk] at h ⊢
        exact ih h

theorem lookup_singleton_self {β : Type} (key : String × String) (v : β) :
    List.lookup key [(key, v)] = some v := by
  rw [List.lookup_cons]
  simp

/-- C3: ingesting a county bulletin whose identity key is already occupied
first removes the occupant's present-field contributions from the
auto-calculated total, stores the merge-or-choose result under the key, and
adds the result's present-field contributions — so the total reflects only
the final stored bulletin for that county, never occupant plus incoming. -/
theorem FullReportModel.add_existing_county_spec (r : FullReportModel)
    (b e : CountyBulletinModel)
    (h : r.county_bulletins.lookup b.key = some e) :
    (r.add_new_bulletin (BulletinModel.county b)).county_bulletins.lookup b.key
      = some (((r.pop_county_bulletin b.key).2.compare_county_bulletins_and_return_the_completest e b).1) ∧
    (r.add_new_bulletin (BulletinModel.county b)).auto_calculated_total.confirmed_cases.getD 0
      = r.auto_calculated_total.confirmed_cases.getD 0
        - e.confirmed_cases.getD 0
        + (((r.pop_county_bulletin b.key).2.compare_county_bulletins_and_return_the_completest e b).1).confirmed_cases.getD 0 ∧
    (r.add_new_bulletin (BulletinModel.county b)).auto_calculated_total.deaths.getD 0
      = r.auto_calculated_total.deaths.getD 0 - e.deaths.getD 0
        + (((r.pop_county_bulletin b.key).2.compare_county_bulletins_and_return_the_completest e b).1).deaths.getD 0 := by
  have hpop := r.pop_county_bulletin_found b.key e h
  simp only [add_new_bulletin, hpop.1]
  rw [county_cc_arg, county_dd_arg]
  set X := (r.pop_county_bulletin b.key).2 with hX
  set c := (X.compare_county_bulletins_and_return_the_completest e b).1 with hc
  set Y := (X.compare_county_bulletins_and_return_the_completest e b).2 with hY
  have hcmp := X.compare_snd_projections e b
  rw [← hY] at hcmp
  have hbump := FullReportModel.bump_auto_total_spec
    { Y with county_bulletins := Y.county_bulletins ++ [(b.key, c)] }
    c.confirmed_cases c.deaths
  refine ⟨?_, ?_, ?_⟩
  · rw [hbump.2.2.1]
    show (Y.county_bulletins ++ [(b.key, c)]).lookup b.key = some c
    rw [lookup_append_right]
    · exact lookup_singleton_self b.key c
    · rw [hcmp.1, hpop.2.1]
      exact lookup_filter_ne_self r.county_bulletins b.key
  · rw [hbump.1]
    show Y.auto_calculated_total.confirmed_cases.getD 0 + c.confirmed_cases.getD 0 = _
    rw [hcmp.2.1, hpop.2.2.1]
  · rw [hbump.2.1]
    show Y.auto_calculated_total.deaths.getD 0 + c.deaths.getD 0 = _
    rw [hcmp.2.1, hpop.2.2.2.1]

/-! ## Which slugs auto-detection can introduce -/

theorem FullReportModel.mem_add_warning_cases (r : FullReportModel)
    (s t : String) (h : t ∈ (r.add_warning s).warnings) :
    t ∈ r.warnings ∨ t = s := by
  unfold add_warning at h
  split at h
  · exact Or.inl h
  · rcases List.mem_append.mp h with h1 | h1
    · exact Or.inl h1
    · simp only [List.mem_singleton] at h1
      exact Or.inr h1

theorem FullReportModel.mem_detect_step_cases (r : FullReportModel)
    (c : FullReportModel → Bool) (s t : String)
    (h : t ∈ (r.detect_step c s).warnings) :
    t ∈ r.warnings ∨ t = s := by
  unfold detect_step at h
  split at h
  · exact mem_add_warning_cases _ _ _ h
  · exact Or.inl h

theorem FullReportModel.mem_presence_cases (r : FullReportModel) (t : String)
    (h : t ∈ (r.detect_presence_warnings).warnings) :
    t ∈ r.warnings ∨
      (t = "MISSING_COUNTY_BULLETINS" ∧ r.cond_missing_county = true) ∨
      t = "MISSING_IMPORTED_UNDEFINED_CASES" ∨
      t = "ONLY_TOTAL" ∨
      t = "MISSING_CONFIRMED_CASES" ∨
      t = "MISSING_DEATHS" := by
  unfold detect_presence_warnings at h
  rcases mem_detect_step_cases _ _ _ _ h with h | ht
  · rcases mem_detect_step_cases _ _ _ _ h with h | ht
    · rcases mem_detect_step_cases _ _ _ _ h with h | ht
      · rcases mem_detect_step_cases _ _ _ _ h with h | ht
        · rcases mem_detect_step_cases _ _ _ _ h with h | ht
          · exact Or.inl h
          · -- first detect step: the condition must have held
            unfold detect_step at h
            rename_i hsplit
            revert h
            split
            · intro h
              rcases mem_add_warning_cases _ _ _ h with h | ht2
              · exact Or.inl h
              · exact Or.inr (Or.inl ⟨ht2, by assumption⟩)
            · intro h
              exact Or.inl h
        · exact Or.inr (Or.inr (Or.inl ht))
      · exact Or.inr (Or.inr (Or.inr (Or.inl ht)))
    · exact Or.inr (Or.inr (Or.inr (Or.inr (Or.inl ht))))
  · exact Or.inr (Or.inr (Or.inr (Or.inr (Or.inr ht))))

theorem FullReportModel.mem_auto_detect_cases (r : FullReportModel)
    (t : String) (h : t ∈ (r.auto_detect_warnings).warnings) :
    t ∈ r.warnings ∨
      (t = "MISSING_COUNTY_BULLETINS" ∧ r.cond_missing_county = true) ∨
      t = "MISSING_IMPORTED_UNDEFINED_CASES" ∨
      t = "ONLY_TOTAL" ∨
      t = "MISSING_CONFIRMED_CASES" ∨
      t = "MISSING_DEATHS" ∨
      t = "NO_OFFICIAL_TOTAL" ∨
      t = "TOTAL_DONT_MATCH" := by
  simp only [auto_detect_warnings] at h
  have hstep : t ∈ (r.detect_presence_warnings).warnings ∨
      t = "NO_OFFICIAL_TOTAL" ∨ t = "TOTAL_DONT_MATCH" := by
    split at h
    · rcases mem_add_warning_cases _ _ _ h with h1 | h1
      · exact Or.inl h1
      · exact Or.inr (Or.inl h1)
    · split at h
      · rcases mem_add_warning_cases _ _ _ h with h1 | h1
        · exact Or.inl h1
        · exact Or.inr (Or.inr h1)
      · exact Or.inl h
  rcases hstep with h1 | h1 | h1
  · rcases r.mem_presence_cases t h1 with h2 | h2 | h2 | h2 | h2 | h2
    · exact Or.inl h2
    · exact Or.inr (Or.inl (by simpa using h2))
    · exact Or.inr (Or.inr (Or.inl h2))
    · exact Or.inr (Or.inr (Or.inr (Or.inl h2)))
    · exact Or.inr (Or.inr (Or.inr (Or.inr (Or.inl h2))))
    · exact Or.inr (Or.inr (Or.inr (Or.inr (Or.inr (Or.inl h2)))))
  · exact Or.inr (Or.inr (Or.inr (Or.inr (Or.inr (Or.inr (Or.inl h1))))))
  · exact Or.inr (Or.inr (Or.inr (Or.inr (Or.inr (Or.inr (Or.inr h1))))))

/-- Ingesting a county bulletin under a fresh key that is empty stores it
verbatim and leaves the rest of the report untouched. -/
theorem FullReportModel.add_fresh_empty_county (r : FullReportModel)
    (b : CountyBulletinModel)
    (hfresh : r.county_bulletins.lookup b.key = none)
    (hb : b.is_empty = true) :
    r.add_new_bulletin (BulletinModel.county b)
      = { r with county_bulletins := r.county_bulletins ++ [(b.key, b)] } := by
  have hc : b.has_confirmed_cases = false ∧ b.has_deaths = false := by
    simpa [CountyBulletinModel.is_empty] using hb
  simp only [add_new_bulletin, pop_county_bulletin_fresh r b.key hfresh]
  rw [hc.1, hc.2]
  simp [bump_auto_total]

/-- C10: ingesting an empty county bulletin into a fresh report still stores
it under its identity key while leaving the auto-calculated total untouched;
the resulting report does not carry the `MISSING_COUNTY_BULLETINS` warning
even when the county-bulletins quality is expected, yet the bulletin
contributes no row to the export (only the bucket and total rows remain). -/
theorem FullReportModel.add_empty_county_spec
    (reference_date published_at : Nat) (state : String)
    (qualities : List ReportQuality) (r0 : FullReportModel)
    (hq : ReportQuality.COUNTY_BULLETINS ∈ qualities)
    (hinit : FullReportModel.init reference_date published_at state qualities
      = Except.ok r0)
    (b : CountyBulletinModel) (hb : b.is_empty = true) :
    (r0.add_new_bulletin (BulletinModel.county b)).county_bulletins
      = [(b.key, b)] ∧
    (r0.add_new_bulletin (BulletinModel.county b)).auto_calculated_total
      = r0.auto_calculated_total ∧
    "MISSING_COUNTY_BULLETINS"
      ∉ ((r0.add_new_bulletin
          (BulletinModel.county b)).auto_detect_warnings).warnings ∧
    (r0.add_new_bulletin (BulletinModel.county b)).to_csv_rows
      = [CsvRow.imported
          (r0.add_new_bulletin
            (BulletinModel.county b)).undefined_or_imported_cases_bulletin,
         CsvRow.total
          (r0.add_new_bulletin (BulletinModel.county b)).total_bulletin] := by
  have hne : qualities.isEmpty = false := by
    cases qualities with
    | nil => cases hq
    | cons q t => rfl
  unfold FullReportModel.init at hinit
  rw [hne] at hinit
  simp only [Bool.false_eq_true, if_false, Except.ok.injEq] at hinit
  have hcounty : r0.county_bulletins = [] := by rw [← hinit]
  have hwarn : r0.warnings = [] := by rw [← hinit]
  have hfresh : r0.county_bulletins.lookup b.key = none := by
    rw [hcounty]; rfl
  rw [FullReportModel.add_fresh_empty_county r0 b hfresh hb]
  rw [hcounty]
  refine ⟨rfl, rfl, ?_, ?_⟩
  · intro hmem
    rcases FullReportModel.mem_auto_detect_cases _ _ hmem with
      h1 | h1 | h1 | h1 | h1 | h1 | h1 | h1
    · rw [show ({ r0 with county_bulletins := [] ++ [(b.key, b)]} :
          FullReportModel).warnings = r0.warnings from rfl, hwarn] at h1
      cases h1
    · have : ({ r0 with county_bulletins := [] ++ [(b.key, b)]} :
          FullReportModel).cond_missing_county = false := by
        simp [FullReportModel.cond_missing_county]
      rw [this] at h1
      cases h1.2
    · simp at h1
    · simp at h1
    · simp at h1
    · simp at h1
    · simp at h1
    · simp at h1
  · simp [FullReportModel.to_csv_rows, FullReportModel.county_bulletins_list,
      List.mergeSort_singleton, hb]

/-- Witness for C10 at a concrete fresh report and empty county bulletin. -/
theorem FullReportModel.add_empty_county_spec_witness :
    ReportQuality.COUNTY_BULLETINS ∈ [ReportQuality.COUNTY_BULLETINS] ∧
    FullReportModel.init 10 11 "SP" [ReportQuality.COUNTY_BULLETINS]
      = Except.ok sampleFreshReport ∧
    sampleEmptyCounty.is_empty = true ∧
    ((sampleFreshReport.add_new_bulletin
        (BulletinModel.county sampleEmptyCounty)).county_bulletins
      = [(sampleEmptyCounty.key, sampleEmptyCounty)] ∧
    (sampleFreshReport.add_new_bulletin
        (BulletinModel.county sampleEmptyCounty)).auto_calculated_total
      = sampleFreshReport.auto_calculated_total ∧
    "MISSING_COUNTY_BULLETINS"
      ∉ ((sampleFreshReport.add_new_bulletin
          (BulletinModel.county sampleEmptyCounty)).auto_detect_warnings).warnings ∧
    (sampleFreshReport.add_new_bulletin
        (BulletinModel.county sampleEmptyCounty)).to_csv_rows
      = [CsvRow.imported
          (sampleFreshReport.add_new_bulletin
            (BulletinModel.county sampleEmptyCounty)).undefined_or_imported_cases_bulletin,
         CsvRow.total
          (sampleFreshReport.add_new_bulletin
            (BulletinModel.county sampleEmptyCounty)).total_bulletin]) :=
  ⟨by decide, by rfl, by rfl,
   FullReportModel.add_empty_county_spec 10 11 "SP"
     [ReportQuality.COUNTY_BULLETINS] sampleFreshReport (by decide) (by rfl)
     sampleEmptyCounty (by rfl)⟩

/-- Witness for C3: a report holding a complete bulletin for Campinas
receives a conflicting incomplete bulletin for the same county. -/
theorem FullReportModel.add_existing_county_spec_witness :
    sampleReportA.county_bulletins.lookup sampleCountyB.key
      = some sampleCountyA ∧
    ((sampleReportA.add_new_bulletin
        (BulletinModel.county sampleCountyB)).county_bulletins.lookup
          sampleCountyB.key
      = some (((sampleReportA.pop_county_bulletin
          sampleCountyB.key).2.compare_county_bulletins_and_return_the_completest
            sampleCountyA sampleCountyB).1) ∧
    (sampleReportA.add_new_bulletin
        (BulletinModel.county sampleCountyB)).auto_calculated_total.confirmed_cases.getD 0
      = sampleReportA.auto_calculated_total.confirmed_cases.getD 0
        - sampleCountyA.confirmed_cases.getD 0
        + (((sampleReportA.pop_county_bulletin
            sampleCountyB.key).2.compare_county_bulletins_and_return_the_completest
              sampleCountyA sampleCountyB).1).confirmed_cases.getD 0 ∧
    (sampleReportA.add_new_bulletin
        (BulletinModel.county sampleCountyB)).auto_calculated_total.deaths.getD 0
      = sampleReportA.auto_calculated_total.deaths.getD 0
        - sampleCountyA.deaths.getD 0
        + (((sampleReportA.pop_county_bulletin
            sampleCountyB.key).2.compare_county_bulletins_and_return_the_completest
              sampleCountyA sampleCountyB).1).deaths.getD 0) :=
  ⟨by decide,
   FullReportModel.add_existing_county_spec sampleReportA sampleCountyB
     sampleCountyA (by decide)⟩

/-! ## The running-total invariant -/

theorem lookup_none_not_mem_fst {β : Type} (l : List ((String × String) × β))
    (key : String × String) (h : l.lookup key = none) :
    key ∉ l.map Prod.fst := by
  induction l with
  | nil => simp
  | cons p t ih =>
    obtain ⟨k, v⟩ := p
    rw [List.lookup_cons] at h
    cases hk : (key == k) with
    | true => simp [hk] at h
    | false =>
      simp only [hk] at h
      simp only [List.map_cons, List.mem_cons]
      rintro (h1 | h1)
      · rw [h1] at hk
        simp at hk
      · exact ih h h1

theorem sum_map_filter_ne {β : Type} (f : β → Int) (key : String × String)
    (e : β) :
    ∀ l : List ((String × String) × β), (l.map Prod.fst).Nodup →
      l.lookup key = some e →
      ((l.filter (fun p => p.1 ≠ key)).map (fun p => f p.2)).sum
        = (l.map (fun p => f p.2)).sum - f e := by
  intro l
  induction l with
  | nil =>
    intro _ h
    cases h
  | cons p t ih =>
    intro hnd h
    obtain ⟨k, v⟩ := p
    rw [List.lookup_cons] at h
    by_cases hk : key = k
    · have hbeq : (key == k) = true := by simp [hk]
      simp only [hbeq] at h
      obtain rfl : v = e := Option.some.inj h
      subst hk
      have hnk : ∀ q ∈ t, ¬ q.1 = key := by
        intro q hq hq1
        have hmem : key ∈ t.map Prod.fst := List.mem_map.mpr ⟨q, hq, hq1⟩
        exact (List.nodup_cons.mp (by simpa using hnd)).1 hmem
      have hfe : t.filter (fun p => p.1 ≠ key) = t :=
        List.filter_eq_self.mpr (fun a ha => by simpa using hnk a ha)
      rw [List.filter_cons, if_neg (by simp), hfe, List.map_cons,
        List.sum_cons]
      ring
    · have hbeq : (key == k) = false := by
        simp only [beq_eq_false_iff_ne]
        exact hk
      simp only [hbeq] at h
      have hnd2 : (t.map Prod.fst).Nodup :=
        (List.nodup_cons.mp (by simpa using hnd)).2
      have hkk : (k, v).1 ≠ key := by
        dsimp only
        exact fun hh => hk hh.symm
      rw [List.filter_cons, if_pos (by simpa using hkk), List.map_cons,
        List.sum_cons, ih hnd2 h, List.map_cons, List.sum_cons]
      ring

theorem FullReportModel.good_add_county (r : FullReportModel)
    (b : CountyBulletinModel) (hg : r.good_state) :
    (r.add_new_bulletin (BulletinModel.county b)).good_state ∧
    (r.add_new_bulletin
      (BulletinModel.county b)).undefined_or_imported_cases_bulletin
      = r.undefined_or_imported_cases_bulletin := by
  obtain ⟨⟨hmc, hmd⟩, hnd⟩ := hg
  unfold county_cases_sum at hmc
  unfold county_deaths_sum at hmd
  cases hlk : r.county_bulletins.lookup b.key with
  | none =>
    simp only [add_new_bulletin, pop_county_bulletin_fresh r b.key hlk]
    rw [county_cc_arg, county_dd_arg]
    have hbump := FullReportModel.bump_auto_total_spec
      { r with county_bulletins := r.county_bulletins ++ [(b.key, b)] }
      b.confirmed_cases b.deaths
    have hnotin : b.key ∉ r.county_bulletins.map Prod.fst :=
      lookup_none_not_mem_fst _ _ hlk
    refine ⟨⟨⟨?_, ?_⟩, ?_⟩, ?_⟩
    · rw [hbump.1]
      unfold county_cases_sum
      rw [hbump.2.2.1, hbump.2.2.2.1]
      show r.auto_calculated_total.confirmed_cases.getD 0
            + b.confirmed_cases.getD 0
          = ((r.county_bulletins ++ [(b.key, b)]).map
              (fun p => p.2.confirmed_cases.getD 0)).sum
            + r.undefined_or_imported_cases_bulletin.confirmed_cases.getD 0
      rw [List.map_append, List.sum_append, hmc]
      simp
      ring
    · rw [hbump.2.1]
      unfold county_deaths_sum
      rw [hbump.2.2.1, hbump.2.2.2.1]
      show r.auto_calculated_total.deaths.getD 0 + b.deaths.getD 0
          = ((r.county_bulletins ++ [(b.key, b)]).map
              (fun p => p.2.deaths.getD 0)).sum
            + r.undefined_or_imported_cases_bulletin.deaths.getD 0
      rw [List.map_append, List.sum_append, hmd]
      simp
      ring
    · rw [hbump.2.2.1]
      show ((r.county_bulletins ++ [(b.key, b)]).map Prod.fst).Nodup
      rw [List.map_append, List.nodup_append]
      refine ⟨hnd, List.nodup_singleton _, ?_⟩
      intro x hx hx2
      simp only [List.map_cons, List.map_nil, List.mem_singleton] at hx2
      rw [hx2] at hx
      exact hnotin hx
    · rw [hbump.2.2.2.1]
  | some e =>
    have hpop := r.pop_county_bulletin_found b.key e hlk
    simp only [add_new_bulletin, hpop.1]
    rw [county_cc_arg, county_dd_arg]
    set X := (r.pop_county_bulletin b.key).2 with hX
    set c := (X.compare_county_bulletins_and_return_the_completest e b).1
      with hc
    set Y := (X.compare_county_bulletins_and_return_the_completest e b).2
      with hY
    have hcmp := X.compare_snd_projections e b
    rw [← hY] at hcmp
    have hbump := FullReportModel.bump_auto_total_spec
      { Y with county_bulletins := Y.county_bulletins ++ [(b.key, c)] }
      c.confirmed_cases c.deaths
    have hsum_cc := sum_map_filter_ne
      (fun q : CountyBulletinModel => q.confirmed_cases.getD 0) b.key e
      r.county_bulletins hnd hlk
    have hsum_dd := sum_map_filter_ne
      (fun q : CountyBulletinModel => q.deaths.getD 0) b.key e
      r.county_bulletins hnd hlk
    refine ⟨⟨⟨?_, ?_⟩, ?_⟩, ?_⟩
    · rw [hbump.1]
      unfold county_cases_sum
      rw [hbump.2.2.1, hbump.2.2.2.1]
      show Y.auto_calculated_total.confirmed_cases.getD 0
            + c.confirmed_cases.getD 0
          = ((Y.county_bulletins ++ [(b.key, c)]).map
              (fun p => p.2.confirmed_cases.getD 0)).sum
            + Y.undefined_or_imported_cases_bulletin.confirmed_cases.getD 0
      rw [hcmp.2.1, hpop.2.2.1, hcmp.1, hpop.2.1, hcmp.2.2.1,
        hpop.2.2.2.2.1, List.map_append, List.sum_append, hsum_cc, hmc]
      simp
      ring
    · rw [hbump.2.1]
      unfold county_deaths_sum
      rw [hbump.2.2.1, hbump.2.2.2.1]
      show Y.auto_calculated_total.deaths.getD 0 + c.deaths.getD 0
          = ((Y.county_bulletins ++ [(b.key, c)]).map
              (fun p => p.2.deaths.getD 0)).sum
            + Y.undefined_or_imported_cases_bulletin.deaths.getD 0
      rw [hcmp.2.1, hpop.2.2.2.1, hcmp.1, hpop.2.1, hcmp.2.2.1,
        hpop.2.2.2.2.1, List.map_append, List.sum_append, hsum_dd, hmd]
      simp
      ring
    · rw [hbump.2.2.1]
      show ((Y.county_bulletins ++ [(b.key, c)]).map Prod.fst).Nodup
      rw [hcmp.1, hpop.2.1, List.map_append, List.nodup_append]
      refine ⟨List.Nodup.sublist ((List.filter_sublist _).map Prod.fst) hnd,
        List.nodup_singleton _, ?_⟩
      intro x hx hx2
      simp only [List.map_cons, List.map_nil, List.mem_singleton] at hx2
      obtain ⟨p, hp, hp1⟩ := List.mem_map.mp hx
      have hpf := List.of_mem_filter hp
      simp only [decide_eq_true_eq] at hpf
      exact hpf (hp1.trans hx2)
    · rw [hbump.2.2.2.1]
      show Y.undefined_or_imported_cases_bulletin = _
      rw [hcmp.2.2.1, hpop.2.2.2.2.1]

theorem FullReportModel.good_add_imported (r : FullReportModel)
    (b : ImportedUndefinedBulletinModel) (hg : r.good_state)
    (hzc : r.undefined_or_imported_cases_bulletin.confirmed_cases.getD 0 = 0)
    (hzd : r.undefined_or_imported_cases_bulletin.deaths.getD 0 = 0) :
    (r.add_new_bulletin (BulletinModel.importedUndefined b)).good_state := by
  obtain ⟨⟨hmc, hmd⟩, hnd⟩ := hg
  unfold county_cases_sum at hmc
  unfold county_deaths_sum at hmd
  simp only [add_new_bulletin]
  rw [imported_cc_arg, imported_dd_arg]
  have hbump := FullReportModel.bump_auto_total_spec
    { r with undefined_or_imported_cases_bulletin := b }
    b.confirmed_cases b.deaths
  refine ⟨⟨?_, ?_⟩, ?_⟩
  · rw [hbump.1]
    unfold county_cases_sum
    rw [hbump.2.2.1, hbump.2.2.2.1]
    show r.auto_calculated_total.confirmed_cases.getD 0
          + b.confirmed_cases.getD 0
        = (r.county_bulletins.map
            (fun p => p.2.confirmed_cases.getD 0)).sum
          + b.confirmed_cases.getD 0
    rw [hmc, hzc]
    ring
  · rw [hbump.2.1]
    unfold county_deaths_sum
    rw [hbump.2.2.1, hbump.2.2.2.1]
    show r.auto_calculated_total.deaths.getD 0 + b.deaths.getD 0
        = (r.county_bulletins.map (fun p => p.2.deaths.getD 0)).sum
          + b.deaths.getD 0
    rw [hmd, hzd]
    ring
  · rw [hbump.2.2.1]
    exact hnd

theorem FullReportModel.good_add_total (r : FullReportModel)
    (b : StateTotalBulletinModel) (hg : r.good_state) :
    (r.add_new_bulletin (BulletinModel.stateTotal b)).good_state ∧
    (r.add_new_bulletin
      (BulletinModel.stateTotal b)).undefined_or_imported_cases_bulletin
      = r.undefined_or_imported_cases_bulletin := by
  simp only [add_new_bulletin]
  split
  · exact ⟨hg, rfl⟩
  · exact ⟨hg, rfl⟩

theorem foldl_good_no_imported :
    ∀ (bs : List BulletinModel) (r : FullReportModel), r.good_state →
      (∀ x ∈ bs, ¬ x.is_imported = true) →
      (bs.foldl FullReportModel.add_new_bulletin r).good_state := by
  intro bs
  induction bs with
  | nil =>
    intro r hg _
    exact hg
  | cons b t ih =>
    intro r hg hni
    rw [List.foldl_cons]
    cases b with
    | county c =>
      exact ih _ (r.good_add_county c hg).1
        (fun x hx => hni x (List.mem_cons_of_mem _ hx))
    | importedUndefined c =>
      exact absurd rfl (hni _ (List.mem_cons_self _ _))
    | stateTotal c =>
      exact ih _ (r.good_add_total c hg).1
        (fun x hx => hni x (List.mem_cons_of_mem _ hx))

theorem foldl_good_at_most_one_imported :
    ∀ (bs : List BulletinModel) (r : FullReportModel), r.good_state →
      r.undefined_or_imported_cases_bulletin.confirmed_cases.getD 0 = 0 →
      r.undefined_or_imported_cases_bulletin.deaths.getD 0 = 0 →
      bs.countP (fun x => x.is_imported) ≤ 1 →
      (bs.foldl FullReportModel.add_new_bulletin r).good_state := by
  intro bs
  induction bs with
  | nil =>
    intro r hg _ _ _
    exact hg
  | cons b t ih =>
    intro r hg hzc hzd hcount
    rw [List.foldl_cons]
    cases b with
    | county c =>
      have h2 := r.good_add_county c hg
      refine ih _ h2.1 ?_ ?_ ?_
      · rw [h2.2]; exact hzc
      · rw [h2.2]; exact hzd
      · rw [List.countP_cons] at hcount
        simpa [BulletinModel.is_imported] using hcount
    | stateTotal c =>
      have h2 := r.good_add_total c hg
      refine ih _ h2.1 ?_ ?_ ?_
      · rw [h2.2]; exact hzc
      · rw [h2.2]; exact hzd
      · rw [List.countP_cons] at hcount
        simpa [BulletinModel.is_imported] using hcount
    | importedUndefined c =>
      have hcz : t.countP (fun x => x.is_imported) = 0 := by
        rw [List.countP_cons] at hcount
        have hps : (BulletinModel.importedUndefined c).is_imported = true :=
          rfl
        rw [if_pos hps] at hcount
        omega
      exact foldl_good_no_imported t _
        (r.good_add_imported c hg hzc hzd)
        (List.countP_eq_zero.mp hcz)

/-- C1 (amended): starting from a freshly constructed report, after every
finite sequence of `add_new_bulletin` calls that ingests at most one
`ImportedUndefinedBulletinModel`, the auto-calculated total's
confirmed-cases count equals the sum of confirmed-cases over the currently
stored county bulletins plus the current imported/undefined bulletin (a
missing field contributing zero), and symmetrically for deaths.  (The
restriction is forced: a second non-empty imported/undefined ingestion
replaces the bucket without subtracting its previous contribution.) -/
theorem FullReportModel.auto_total_matches_stored_sum
    (reference_date published_at : Nat) (state : String)
    (qualities : List ReportQuality) (r0 : FullReportModel)
    (hinit : FullReportModel.init reference_date published_at state qualities
      = Except.ok r0)
    (bs : List BulletinModel)
    (himp : bs.countP (fun x => x.is_imported) ≤ 1) :
    (bs.foldl FullReportModel.add_new_bulletin r0).auto_total_matches_stored := by
  have hr0 : r0.good_state ∧
      r0.undefined_or_imported_cases_bulletin.confirmed_cases.getD 0 = 0 ∧
      r0.undefined_or_imported_cases_bulletin.deaths.getD 0 = 0 := by
    unfold FullReportModel.init at hinit
    split at hinit
    · cases hinit
    · simp only [Except.ok.injEq] at hinit
      rw [← hinit]
      refine ⟨⟨⟨?_, ?_⟩, ?_⟩, rfl, rfl⟩
      · simp [FullReportModel.county_cases_sum]
      · simp [FullReportModel.county_deaths_sum]
      · simp
  exact (foldl_good_at_most_one_imported bs r0 hr0.1 hr0.2.1 hr0.2.2 himp).1

/-- Witness for C1 at a concrete report and a concrete three-bulletin
sequence with one imported/undefined ingestion. -/
theorem FullReportModel.auto_total_matches_stored_sum_witness :
    FullReportModel.init 10 11 "SP" [ReportQuality.COUNTY_BULLETINS]
      = Except.ok sampleFreshReport ∧
    ([BulletinModel.county sampleCountyA,
      BulletinModel.importedUndefined sampleImported,
      BulletinModel.stateTotal sampleTotal].countP
        (fun x => x.is_imported)) ≤ 1 ∧
    ([BulletinModel.county sampleCountyA,
      BulletinModel.importedUndefined sampleImported,
      BulletinModel.stateTotal sampleTotal].foldl
        FullReportModel.add_new_bulletin
        sampleFreshReport).auto_total_matches_stored :=
  ⟨by rfl, by decide,
   FullReportModel.auto_total_matches_stored_sum 10 11 "SP"
     [ReportQuality.COUNTY_BULLETINS] sampleFreshReport (by rfl)
     [BulletinModel.county sampleCountyA,
      BulletinModel.importedUndefined sampleImported,
      BulletinModel.stateTotal sampleTotal] (by decide)⟩

/-- C1 counterexample to the unrestricted claim: ingesting the same
non-empty imported/undefined bulletin twice into a fresh report leaves the
auto-calculated total at 2 confirmed cases while the stored bulletins sum
to 1 — the second replacement never subtracts the first contribution. -/
theorem FullReportModel.auto_total_invariant_counterexample :
    FullReportModel.init 10 11 "SP" [ReportQuality.COUNTY_BULLETINS]
      = Except.ok sampleFreshReport ∧
    ¬ ([BulletinModel.importedUndefined sampleImportedOne,
        BulletinModel.importedUndefined sampleImportedOne].foldl
        FullReportModel.add_new_bulletin
        sampleFreshReport).auto_total_matches_stored :=
  ⟨by rfl, by decide⟩

/-- C4: the merge-or-choose step returns the existing bulletin unchanged
when the two are value-equal, otherwise the first complete one (existing
preferred) or the gap-filling merge; it adds a `SOURCES_DONT_MATCH` warning
exactly when both report deaths with differing counts or both report
confirmed cases with differing counts, without ever blocking the merge. -/
theorem FullReportModel.compare_spec (r : FullReportModel)
    (e b : CountyBulletinModel) :
    (r.compare_county_bulletins_and_return_the_completest e b).1 =
      (if e = b then e
       else if e.is_complete then e
       else if b.is_complete then b
       else e.merge_data b) ∧
    (r.compare_county_bulletins_and_return_the_completest e b).2 =
      (if e.sources_diverge b then r.add_warning "SOURCES_DONT_MATCH"
       else r) :=
  r.compare_behavior e b
